import Mathlib

/-!
Shallow embedding of `pytest_telegram/plugin.py` (the pytest-telegram plugin).

The Python module keeps a process-wide retry table (`_retry_info`), fed by three
signal sources (an explicit retry-count attribute, a flaky/retry marker, and
free-text scanning of captured output lines), formats the session statistics into
Telegram messages, and posts them over HTTP.  Machine integers are modelled as
`Int` (Python ints are unbounded), Python `None`-able values as `Option`,
Python dicts (insertion ordered) as association lists with first-key update
semantics, and the HTTP layer as a trace of issued requests together with a
response oracle.  Environment-produced strings (the two `time.strftime`
renderings) are inputs, mirroring that the formatter reads the clock, not the
message structure.
-/

namespace PytestTelegram

/-! ### Python string primitives used by `plugin.py` -/

/-- Truthiness of an optional Python string: `None` and `""` are falsy. -/
def pyTruthy : Option String → Bool
  | none => false
  | some s => !s.isEmpty

/-- Models Python `str.lower()` on a character list (ASCII case folding). -/
def lowerList (l : List Char) : List Char := l.map Char.toLower

/-- Whether `pre` is an initial segment of `l` (helper for substring search). -/
def startsWithList : List Char → List Char → Bool
  | [], _ => true
  | _ :: _, [] => false
  | a :: as, b :: bs => a == b && startsWithList as bs

/-- Models the Python `in` substring test: `containsSub needle hay` is true iff
`needle` occurs contiguously inside `hay`. -/
def containsSub (needle : List Char) : List Char → Bool
  | [] => needle.isEmpty
  | b :: bs => startsWithList needle (b :: bs) || containsSub needle bs

/-- Auxiliary accumulator for whitespace splitting. -/
def splitWsAux : List Char → List Char → List (List Char)
  | [], cur => if cur.isEmpty then [] else [cur.reverse]
  | c :: cs, cur =>
    if c.isWhitespace then
      if cur.isEmpty then splitWsAux cs [] else cur.reverse :: splitWsAux cs []
    else splitWsAux cs (c :: cur)

/-- Models Python `str.split()` with no separator: split on runs of whitespace,
discarding empty pieces. -/
def pySplitWs (l : List Char) : List (List Char) := splitWsAux l []

/-- Models Python `str.strip(c)` for a single character: drop that character
from both ends. -/
def pyStripChar (c : Char) (l : List Char) : List Char :=
  ((l.dropWhile (· == c)).reverse.dropWhile (· == c)).reverse

/-- Models the chain `word.strip('!').strip(',').strip('.')` from
`_extract_retry_info_from_line`. -/
def stripPunct (l : List Char) : List Char :=
  pyStripChar '.' (pyStripChar ',' (pyStripChar '!' l))

/-- Value of a nonempty all-digit character list, else `none`. -/
def digitsVal (l : List Char) : Option Nat :=
  if l.isEmpty then none
  else if l.all Char.isDigit then
    some (l.foldl (fun a c => 10 * a + (c.toNat - '0'.toNat)) 0)
  else none

/-- Models Python `int(token)` on a whitespace-free token: optional sign
followed by decimal digits (PEP 515 underscore grouping and non-ASCII digits
are not modelled); failure is `none` where Python raises `ValueError`. -/
def pyInt (l : List Char) : Option Int :=
  match l with
  | '+' :: rest => (digitsVal rest).map Int.ofNat
  | '-' :: rest => (digitsVal rest).map (fun n => -(Int.ofNat n))
  | _ => (digitsVal l).map Int.ofNat

/-- Models Python `s.split(newline)[0]`: the text up to the first newline. -/
def pyFirstLine (s : String) : String :=
  String.mk (s.toList.takeWhile (fun c => c != '\n'))

/-- Models Python `str.strip()` with no argument: trim whitespace at both ends. -/
def pyStripWs (s : String) : String :=
  String.mk (((s.toList.dropWhile Char.isWhitespace).reverse.dropWhile Char.isWhitespace).reverse)

/-- Fuel-based splitter on a separator: leftmost non-overlapping matches, as
Python `str.split(sep)` scans (the fuel, the input length, always suffices). -/
def splitSepAux (sep : List Char) : Nat → List Char → List Char → List (List Char)
  | _, cur, [] => [cur.reverse]
  | 0, cur, rest => [cur.reverse ++ rest]
  | fuel + 1, cur, c :: cs =>
    if startsWithList sep (c :: cs) then
      cur.reverse :: splitSepAux sep fuel [] (List.drop (sep.length - 1) cs)
    else splitSepAux sep fuel (c :: cur) cs

/-- Models Python `s.split(sep)` for a nonempty separator. -/
def pySplitSep (sep : List Char) (l : List Char) : List (List Char) :=
  splitSepAux sep l.length [] l

/-- Models `nodeid.split(sep)[-1]` for the `::` scope separator: the part of the
node id after the last separator (the bare test function name). -/
def lastSepPart (s : String) : String :=
  String.mk ((pySplitSep ("::".toList) s.toList).getLastD [])

/-! ### The retry table (`_retry_info`)

Python's `_retry_info` is a `dict` from node id to `{'attempts': int,
'final_result': str}`.  Dicts are insertion ordered, update an existing key in
place, and append new keys, which the association-list operations below mirror. -/

/-- One record of `_retry_info`: attempt count and final result string. -/
structure RetryRec where
  attempts : Int
  final_result : String
deriving DecidableEq

/-- The `_retry_info` table: insertion-ordered association list. -/
abbrev RetryTable := List (String × RetryRec)

/-- Dict lookup (`tbl[k]` / `k in tbl`): first record stored under `k`. -/
def tblFind : RetryTable → String → Option RetryRec
  | [], _ => none
  | (k', r) :: t, k => if k' == k then some r else tblFind t k

/-- Dict assignment (`tbl[k] = r`): replace the first record under `k` in
place, else append. -/
def tblSet : RetryTable → String → RetryRec → RetryTable
  | [], k, r => [(k, r)]
  | (k', r') :: t, k, r =>
    if k' == k then (k, r) :: t else (k', r') :: tblSet t k r

/-- Models `_retry_info[k]['final_result'] = o` guarded by `k in _retry_info`. -/
def setFinal (tbl : RetryTable) (k : String) (o : String) : RetryTable :=
  match tblFind tbl k with
  | some r => tblSet tbl k ⟨r.attempts, o⟩
  | none => tbl

/-! ### The attribute/marker signal path (`pytest_runtest_makereport`) -/

/-- Attribute names probed on the test item, in source order. -/
def retryAttrNames : List String :=
  ["_pytest_retry_count", "execution_count", "_retry_count", "retries"]

/-- Models the `for attr_name in [...]: if hasattr(item, attr_name): ... break`
loop: the value of the first conventionally-named retry attribute present. -/
def findAttrRetryCount (attrs : List (String × Int)) : Option Int :=
  retryAttrNames.findSome? (fun n => List.lookup n attrs)

/-- Models the retry-count detection of `pytest_runtest_makereport`: attribute
probe first; a `flaky`/`retry` marker (its positional args given as
`markerArgs`) overrides only when the attribute value is absent or `0` (Python
`not retry_count`), storing `args[0] + 1`. -/
def detectedRetryCount (attrs : List (String × Int)) (markerArgs : Option (List Int)) :
    Option Int :=
  let rc := findAttrRetryCount attrs
  match markerArgs with
  | some args =>
    if rc = none ∨ rc = some 0 then
      match args with
      | a :: _ => some (a + 1)
      | [] => rc
    else rc
  | none => rc

/-- The `call`-phase body of `pytest_runtest_makereport`: when a detected count
exceeds 1, insert the record or raise its `attempts` with `max` (never a sum),
setting `final_result` to the report outcome; afterwards, if the node id is
tracked (e.g. from output parsing), refresh its `final_result`. -/
def makereportCallUpdate (tbl : RetryTable) (nodeid : String) (rc : Option Int)
    (outcome : String) : RetryTable :=
  let tbl1 :=
    match rc with
    | some v =>
      if 1 < v then
        match tblFind tbl nodeid with
        | none => tblSet tbl nodeid ⟨v, outcome⟩
        | some r => tblSet tbl nodeid ⟨max r.attempts v, outcome⟩
      else tbl
    | none => tbl
  setFinal tbl1 nodeid outcome

/-- The `pytest_runtest_makereport` hook: only the `call` phase updates the
table (setup/teardown reports are ignored). -/
def pytest_runtest_makereport (tbl : RetryTable) (when : String) (nodeid : String)
    (attrs : List (String × Int)) (markerArgs : Option (List Int))
    (outcome : String) : RetryTable :=
  if when == "call" then
    makereportCallUpdate tbl nodeid (detectedRetryCount attrs markerArgs) outcome
  else tbl

/-! ### The log-line signal path (`_extract_retry_info_from_line`) -/

/-- The insert/update block of `_extract_retry_info_from_line`: a new identity
is stored with `attempt_num + 1` attempts (the line announces a further retry)
and result `'unknown'`; an existing identity keeps the `max` of old and new. -/
def logLineInsert (tbl : RetryTable) (name : String) (n : Int) : RetryTable :=
  match tblFind tbl name with
  | none => tblSet tbl name ⟨n + 1, "unknown"⟩
  | some r => tblSet tbl name ⟨max r.attempts (n + 1), r.final_result⟩

/-- The attempt number token `words[j]` yields: its punctuation-stripped
integer value when that value lies in `[1, 10]`, nothing otherwise (an
unparsable token is a `ValueError` caught by the `continue`). -/
def attemptNumAt (words : List (List Char)) (j : Nat) : Option Int :=
  match pyInt (stripPunct (words.getD j [])) with
  | some n => if 1 ≤ n ∧ n ≤ 10 then some n else none
  | none => none

/-- The inner `for j in range(max(0, i-3), min(len(words), i+3))` scan: the
first neighbouring token that parses (after punctuation strip) to an integer in
`[1, 10]`.  Out-of-range or unparsable tokens are skipped, as the `continue`
and the placement of the `break` dictate. -/
def firstAttemptNum (words : List (List Char)) (i : Nat) : Option Int :=
  (List.range' (i - 3) (min words.length (i + 3) - (i - 3))).findSome? (attemptNumAt words)

/-- The `for k in range(i)` scan: the first earlier token containing the scope
separator `::` (taken to be a pytest node id). -/
def firstNodeidBefore (words : List (List Char)) (i : Nat) : Option (List Char) :=
  (words.take i).find? (fun w => containsSub ("::".toList) w)

/-- Body of the outer word loop of `_extract_retry_info_from_line` for index
`i`: words containing `attempt` (case-insensitively) trigger the neighbour scan
and, if both an attempt number and a test-name token are found, the update. -/
def extractStep (words : List (List Char)) (tbl : RetryTable) (i : Nat) : RetryTable :=
  if containsSub ("attempt".toList) (lowerList (words.getD i [])) then
    match firstAttemptNum words i with
    | some n =>
      match firstNodeidBefore words i with
      | some name => logLineInsert tbl (String.mk name) n
      | none => tbl
    | none => tbl
  else tbl

/-- Models `_extract_retry_info_from_line` (the leading underscore of the
Python name is dropped): split the line on whitespace and run `extractStep`
over every word index. -/
def extractRetryInfoFromLine (tbl : RetryTable) (line : String) : RetryTable :=
  let words := pySplitWs line.toList
  (List.range words.length).foldl (extractStep words) tbl

/-! ### Terminal-output scanning (`_parse_terminal_output_for_retries`) -/

/-- The keyword pairs recognised as retry phrasings, in source order. -/
def retry_patterns : List (String × String) :=
  [("retrying", "attempt"), ("failed on attempt", "retrying"),
   ("retry", "of"), ("rerun", "attempt")]

/-- Whether the stripped line's lowercase form contains both halves of some
recognised keyword pair. -/
def lineMatchesRetryPattern (line : String) : Bool :=
  retry_patterns.any (fun p =>
    containsSub p.1.toList (lowerList (pyStripWs line).toList) &&
    containsSub p.2.toList (lowerList (pyStripWs line).toList))

/-- Per-line body of the scanning loop: strip the line, and if some keyword
pair occurs in its lowercase form, run the extraction on the stripped line. -/
def parseOutputLine (tbl : RetryTable) (line : String) : RetryTable :=
  if lineMatchesRetryPattern line then extractRetryInfoFromLine tbl (pyStripWs line)
  else tbl

/-- Models `_parse_terminal_output_for_retries`; the lines recovered from the
terminal writer and the reports' captured stdout/stderr are its input. -/
def parse_terminal_output_for_retries (tbl : RetryTable) (lines : List String) : RetryTable :=
  lines.foldl parseOutputLine tbl

/-! ### Test reports and session statistics -/

/-- The fields of a pytest test report that the formatter reads:
`reprcrash_message` is `longrepr.reprcrash.message` when the long
representation has a `reprcrash`, and `longrepr_str` is `str(longrepr)`
(the fallback branch of `_extract_failure_message`). -/
structure TestReport where
  nodeid : String
  reprcrash_message : Option String
  longrepr_str : String
deriving DecidableEq

/-- `terminalreporter.stats`: a dict from outcome category to the session-order
list of reports of that category. -/
abbrev SessionStats := List (String × List TestReport)

/-- Models `stats.get(key, [])`. -/
def statsGet (stats : SessionStats) (k : String) : List TestReport :=
  (List.lookup k stats).getD []

/-- One entry of the `counts` property: the length of a category's report list. -/
def countOf (stats : SessionStats) (k : String) : Nat := (statsGet stats k).length

/-! ### `TestResultsFormatter` -/

/-- The formatter's inputs.  `startTimeStr` and `durationStr` stand for the two
`time.strftime` renderings (`"*%d-%m-%Y %H:%M:%S*"` of the session start and
`"*%H:%M:%S*"` of the duration): they are read from the clock in the source and
therefore enter the model as inputs. -/
structure FormatterState where
  stats : SessionStats
  retry_info : RetryTable
  startTimeStr : String
  durationStr : String

/-- The `retry_counts` property: `retried_tests = len(self.retry_info)` and
`total_retries = sum(info['attempts'] - 1 for info in self.retry_info.values())`. -/
def retry_counts (tbl : RetryTable) : Nat × Int :=
  (tbl.length, (tbl.map (fun p => p.2.attempts - 1)).sum)

/-- The `has_failures` property: failed count or error count positive. -/
def has_failures (stats : SessionStats) : Bool :=
  decide (0 < countOf stats "failed") || decide (0 < countOf stats "error")

/-- The `has_retries` property: the retry table is nonempty. -/
def has_retries (tbl : RetryTable) : Bool := !tbl.isEmpty

/-- Models `_format_timing_section` given the two strftime renderings. -/
def format_timing_section (f : FormatterState) : String :=
  "\n ⌛ Start time: " ++ f.startTimeStr ++ " \n ⏰ Time taken: " ++ f.durationStr

/-- Models `format_summary_message(env, report_url)`. -/
def format_summary_message (f : FormatterState) (env : String)
    (report_url : Option String) : String :=
  let counts := f.stats
  let rc := retry_counts f.retry_info
  let results_section :=
    " ‎ 🚀 Passed: *" ++ toString (countOf counts "passed") ++ "*\n" ++
    " ☠ Failed: *" ++ toString (countOf counts "failed") ++ "*\n" ++
    " 😐 Skipped: *" ++ toString (countOf counts "skipped") ++ "*\n" ++
    " 🗿 Errors: *" ++ toString (countOf counts "error") ++ "*\n"
  let results_section :=
    if has_retries f.retry_info then
      results_section ++
      " 🔄 Retried Tests: *" ++ toString rc.1 ++ "*\n" ++
      " 🔁 Total Retries: *" ++ toString rc.2 ++ "*\n"
    else results_section
  let timing_section := format_timing_section f
  let env_section := "\n‎ ⛺ Environment: *" ++ env ++ "*"
  let url_section :=
    if pyTruthy report_url then "\n 🤓 Report url: *" ++ report_url.getD "" ++ "*"
    else ""
  results_section ++ timing_section ++ env_section ++ url_section

/-- Models `_get_retry_info_for_test`: exact node-id lookup first; otherwise
the first table record whose key contains the bare test function name (the
part of the node id after the last `::`) as a substring. -/
def get_retry_info_for_test (tbl : RetryTable) (nodeid : String) : Option RetryRec :=
  match tblFind tbl nodeid with
  | some r => some r
  | none =>
    let test_name := lastSepPart nodeid
    (tbl.find? (fun p => containsSub test_name.toList p.1.toList)).map (fun p => p.2)

/-- Models `_extract_failure_message`: the first line of
`"{nodeid} - {error_msg}"`. -/
def extract_failure_message (r : TestReport) : String :=
  let error_msg :=
    match r.reprcrash_message with
    | some m => m
    | none => r.longrepr_str
  pyFirstLine (r.nodeid ++ " - " ++ error_msg)

/-- One line of the failed-detail block: the extracted failure message plus,
when retry information matches the report, a `(Failed|Error after N attempts)`
suffix. -/
def line_for (tag : String) (retryInfo : RetryTable) (r : TestReport) : String :=
  let message := extract_failure_message r
  match get_retry_info_for_test retryInfo r.nodeid with
  | some info => message ++ " (" ++ tag ++ " after " ++ toString info.attempts ++ " attempts)"
  | none => message

/-- The `failed_details` list built by `format_failed_tests_message`: one
append per failed report, then one per error report, in session order. -/
def failed_detail_lines (stats : SessionStats) (retryInfo : RetryTable) : List String :=
  let l1 := (statsGet stats "failed").foldl
    (fun acc r => acc ++ [line_for "Failed" retryInfo r]) []
  (statsGet stats "error").foldl
    (fun acc r => acc ++ [line_for "Error" retryInfo r]) l1

/-- Models `format_failed_tests_message`: `None` when there are neither failed
nor error reports, else the newline join of `failed_detail_lines`. -/
def format_failed_tests_message (stats : SessionStats) (retryInfo : RetryTable) :
    Option String :=
  if (statsGet stats "failed").isEmpty && (statsGet stats "error").isEmpty then none
  else some (String.intercalate "\n" (failed_detail_lines stats retryInfo))

/-- The status tag of one retry-detail entry. -/
def retryStatus (final_result : String) : String :=
  if final_result == "passed" then "✅ Eventually Passed"
  else if final_result == "failed" || final_result == "error" then "❌ Still Failed"
  else "❓ Unknown Result"

/-- Models `format_retry_details_message`: `None` when no retries were
tracked, else a header line followed by one entry per table record. -/
def format_retry_details_message (tbl : RetryTable) : Option String :=
  if !has_retries tbl then none
  else some (String.intercalate "\n"
    ("🔄 *Tests that required retries:*\n" ::
      tbl.map (fun p =>
        "• `" ++ p.1 ++ "`\n" ++
        "  └ Attempts: *" ++ toString p.2.attempts ++ "* - " ++ retryStatus p.2.final_result)))

/-! ### `TelegramConfig` and `TelegramNotifier` -/

/-- The configuration values read from the pytest options.  The two sticker ids
have non-`None` defaults in `pytest_addoption` and are plain strings; the other
string options default to `None`. -/
structure TelegramConfig where
  token : Option String
  chat_id : Option String
  success_sticker_id : String
  fail_sticker_id : String
  report_url : Option String
  env : Option String
  disable_stickers : Bool

/-- The `is_configured` property: `bool(self.token and self.chat_id)`. -/
def TelegramConfig.is_configured (c : TelegramConfig) : Bool :=
  pyTruthy c.token && pyTruthy c.chat_id

/-- An HTTP request issued by the notifier: the endpoint together with the
payload fields actually set by the source.  The failed-detail message carries
no `parse_mode`; the summary and retry-detail messages use `Markdown`. -/
inductive TgRequest where
  | sendSticker (chat_id : Option String) (sticker : String)
  | sendMessage (chat_id : Option String) (text : String)
      (parse_mode : Option String) (reply_to : Option Int)
deriving DecidableEq

/-- The sticker chosen by `_send_sticker`: fail sticker on failures, success
sticker otherwise. -/
def stickerChoice (cfg : TelegramConfig) (hasFailures : Bool) : String :=
  if hasFailures then cfg.fail_sticker_id else cfg.success_sticker_id

/-- Models `self.config.env.replace(escaped-newline, newline) if self.config.env
else ''` from `_send_summary_message`. -/
def envText (cfg : TelegramConfig) : String :=
  if pyTruthy cfg.env then (cfg.env.getD "").replace "\\n" "\n" else ""

/-- Models `if reply_to_id: payload['reply_to_message_id'] = reply_to_id`:
`None` and `0` are falsy, so only a nonzero id threads the summary. -/
def replyField (mid : Option Int) : Option Int :=
  match mid with
  | some n => if n = 0 then none else some n
  | none => none

/-- A response oracle for `_make_request`: for the `k`-th issued request,
`none` means the transport raised or the status was non-2xx (the source logs
and returns `None`); `some mid` is a successful response whose JSON carries
`mid` as `result.message_id` (`mid = none` when the field is absent).
`_make_request` never lets an error escape, which is why it is total here. -/
abbrev ResponseOracle := Nat → Option (Option Int)

/-- Models `send_test_results`, recording the trace of issued requests:
sticker (unless disabled), summary (threaded to the sticker's message id when
one came back), failed-detail message (when present), retry-detail message
(when present) — in that source order. -/
def send_test_results (cfg : TelegramConfig) (oracle : ResponseOracle)
    (f : FormatterState) : List TgRequest :=
  let (t1, message_id) :=
    if !cfg.disable_stickers then
      ([TgRequest.sendSticker cfg.chat_id (stickerChoice cfg (has_failures f.stats))],
       (oracle 0).bind id)
    else ([], none)
  let t2 := t1 ++ [TgRequest.sendMessage cfg.chat_id
    (format_summary_message f (envText cfg) cfg.report_url)
    (some "Markdown") (replyField message_id)]
  let t3 :=
    match format_failed_tests_message f.stats f.retry_info with
    | some txt => t2 ++ [TgRequest.sendMessage cfg.chat_id txt none none]
    | none => t2
  match format_retry_details_message f.retry_info with
  | some txt => t3 ++ [TgRequest.sendMessage cfg.chat_id txt (some "Markdown") none]
  | none => t3

/-! ### Final-result reconciliation (`_update_retry_final_results`) -/

/-- The `test_results` dict: node id to category, built over the four
categories in source order (later categories overwrite on duplicate node ids). -/
def buildTestResults (stats : SessionStats) : List (String × String) :=
  (["passed", "failed", "error", "skipped"]).foldl
    (fun acc ty => (statsGet stats ty).foldl
      (fun acc r =>
        if (List.lookup r.nodeid acc).isSome then
          acc.map (fun p => if p.1 == r.nodeid then (p.1, ty) else p)
        else acc ++ [(r.nodeid, ty)])
      acc)
    []

/-- The per-record body of `_update_retry_final_results`: the final category of
the record's exact node id, or of the first result whose node id contains the
record's bare function name, else the record unchanged. -/
def finalResultFor (test_results : List (String × String)) (p : String × RetryRec) :
    String × RetryRec :=
  match List.lookup p.1 test_results with
  | some result => (p.1, RetryRec.mk p.2.attempts result)
  | none =>
    match test_results.find? (fun q => containsSub (lastSepPart p.1).toList q.1.toList) with
    | some q => (p.1, RetryRec.mk p.2.attempts q.2)
    | none => p

/-- Models `_update_retry_final_results`: each tracked identity takes the final
category of its exact node id, or of the first result whose node id contains
its bare function name, leaving `attempts` untouched. -/
def update_retry_final_results (tbl : RetryTable) (stats : SessionStats) : RetryTable :=
  tbl.map (finalResultFor (buildTestResults stats))

/-! ### The session-end hook (`pytest_terminal_summary`) -/

/-- The hook's inputs: whether `terminalreporter.config` has a `workerinput`
attribute (pytest-xdist worker), the output lines recovered from the terminal
writer and captured stdout/stderr, the final stats, the configuration, the two
strftime renderings, and the response oracle. -/
structure TerminalSummaryInput where
  has_workerinput : Bool
  output_lines : List String
  stats : SessionStats
  cfg : TelegramConfig
  startTimeStr : String
  durationStr : String
  oracle : ResponseOracle

/-- Models `pytest_terminal_summary`: returns the retry table after the hook
together with the trace of HTTP requests it issued.  A worker process returns
immediately; an incomplete configuration stops before any request. -/
def pytest_terminal_summary (tbl : RetryTable) (inp : TerminalSummaryInput) :
    RetryTable × List TgRequest :=
  if inp.has_workerinput then (tbl, [])
  else
    let tbl1 := parse_terminal_output_for_retries tbl inp.output_lines
    let tbl2 := update_retry_final_results tbl1 inp.stats
    if !inp.cfg.is_configured then (tbl2, [])
    else (tbl2, send_test_results inp.cfg inp.oracle
      ⟨inp.stats, tbl2, inp.startTimeStr, inp.durationStr⟩)

/-! ### Attempt-completion signals for a single identity

The two table-update paths above, seen as a stream of signals for one test
identity: `direct` is the attribute/marker path of `pytest_runtest_makereport`
with its detected count, `scraped` is the log-parsing path with its extracted
attempt number.  `observedVal` is the attempt number a signal reports for the
identity: the direct path observes its detected count when that count exceeds
one (otherwise it carries no attempt-count information), and the log path
observes `attempt_num + 1` (the source's own normalisation: the scanned line
announces a further retry). -/

inductive AttemptSignal where
  | direct (rc : Option Int) (outcome : String)
  | scraped (n : Int)

/-- Applying one signal for identity `id` to the table, via the same update
functions the hooks use. -/
def applyAttemptSignal (tbl : RetryTable) (id : String) : AttemptSignal → RetryTable
  | .direct rc outcome => makereportCallUpdate tbl id rc outcome
  | .scraped n => logLineInsert tbl id n

/-- The attempt number an individual signal observes, if any. -/
def observedVal : AttemptSignal → Option Int
  | .direct (some v) _ => if 1 < v then some v else none
  | .direct none _ => none
  | .scraped n => some (n + 1)

/-- The attempt numbers observed across a signal sequence. -/
def observedVals (sigs : List AttemptSignal) : List Int := sigs.filterMap observedVal

/-- The maximum of a list of integers, `none` on the empty list. -/
def listMax? : List Int → Option Int
  | [] => none
  | v :: vs => some (vs.foldl max v)

/-! ### Reachable retry tables

Every mutation of `_retry_info` in the source goes through one of the three
functions below (the `pytest_sessionstart` hook resets the table to empty). -/

/-- One update step on the retry table, by any of the source's update paths. -/
inductive RetryStep : RetryTable → RetryTable → Prop where
  | makereport : ∀ tbl when nodeid attrs markerArgs outcome,
      RetryStep tbl (pytest_runtest_makereport tbl when nodeid attrs markerArgs outcome)
  | logline : ∀ tbl line, RetryStep tbl (extractRetryInfoFromLine tbl line)
  | outputScan : ∀ tbl lines, RetryStep tbl (parse_terminal_output_for_retries tbl lines)
  | finalize : ∀ tbl stats, RetryStep tbl (update_retry_final_results tbl stats)

/-- Tables reachable within one session: empty at `pytest_sessionstart`, then
any sequence of update steps. -/
inductive RetryReach : RetryTable → Prop where
  | empty : RetryReach []
  | step : ∀ {t t'}, RetryReach t → RetryStep t t' → RetryReach t'

/-! ### Specification-side notions used in theorem statements -/

/-- `obsMax acc v`: the running maximum of observed attempt numbers, `acc`
being `none` before the first observation. -/
def obsMax (a : Option Int) (v : Int) : Option Int :=
  some (match a with | none => v | some x => max x v)

/-- The number of lines of a rendered message: one more than its newline
count (messages are built by `'\n'.join`, so this is the joined list's
length). -/
def countLines (s : String) : Nat :=
  (s.toList.filter (fun c => c == '\n')).length + 1

/-- `r` is the record of the first table entry whose key contains `name` as a
substring: the table splits as `pre ++ (k, r) :: post` with `name` inside `k`
and inside no key of `pre`. -/
def firstSubstrMatch (tbl : RetryTable) (name : String) (r : RetryRec) : Prop :=
  ∃ pre k post, tbl = pre ++ (k, r) :: post ∧
    containsSub name.toList k.toList = true ∧
    ∀ p ∈ pre, containsSub name.toList p.1.toList = false

/-! ### Concrete inputs used by witnesses and counterexamples -/

/-- A three-source signal sequence for one identity: attribute count 3, a log
line announcing attempt 2 (observed as 3), marker-derived count 2. -/
def c1sigs : List AttemptSignal :=
  [.direct (some 3) "failed", .scraped 2, .direct (some 2) "passed"]

/-- A table holding a record with `attempts = 1` (unreachable by the update
paths, but a legal table value). -/
def c2tbl : RetryTable := [("t.py::test_one", ⟨1, "passed"⟩)]

/-- A reachable-shaped table: every record has at least two attempts. -/
def c2tbl' : RetryTable := [("a.py::test_a", ⟨3, "passed"⟩), ("b.py::test_b", ⟨2, "failed"⟩)]

/-- Session statistics with five failed reports and nothing else. -/
def c3stats : SessionStats :=
  [("failed",
    [⟨"t.py::test_1", some "boom", "boom"⟩, ⟨"t.py::test_2", some "boom", "boom"⟩,
     ⟨"t.py::test_3", some "boom", "boom"⟩, ⟨"t.py::test_4", some "boom", "boom"⟩,
     ⟨"t.py::test_5", some "boom", "boom"⟩])]

/-- A fully configured delivery target with stickers enabled. -/
def c4cfg : TelegramConfig := ⟨some "tk", some "42", "S", "F", none, none, false⟩

/-- A session with one failed test that was retried once. -/
def c4f : FormatterState :=
  ⟨[("failed", [⟨"t.py::test_a", some "boom", "boom"⟩])],
   [("t.py::test_a", ⟨2, "failed"⟩)], "ST", "DU"⟩

/-- An oracle on which every request succeeds with message id 5. -/
def c4oracle : ResponseOracle := fun _ => some (some 5)

/-- A fully configured delivery target (for the delivery-robustness claim). -/
def c5cfg : TelegramConfig := ⟨some "tk", some "42", "S", "F", none, none, false⟩

/-- A session with one tracked retry and no failure reports. -/
def c5f : FormatterState := ⟨[], [("t.py::test_a", ⟨2, "unknown"⟩)], "ST", "DU"⟩

/-- An oracle on which every request — the summary send included — fails. -/
def c5oracle : ResponseOracle := fun _ => none

/-- A session-end input with the token absent but everything else live. -/
def c6inp : TerminalSummaryInput :=
  ⟨false, ["t.py::test_a failed on attempt 1! Retrying!"],
   [("failed", [⟨"t.py::test_a", some "boom", "boom"⟩])],
   ⟨none, some "42", "S", "F", none, none, false⟩, "ST", "DU", fun _ => some (some 5)⟩

/-- A session-end input on a distributed-execution worker process. -/
def c7inp : TerminalSummaryInput :=
  ⟨true, ["t.py::test_a failed on attempt 1! Retrying!"],
   [("passed", [⟨"t.py::test_a", none, ""⟩])],
   ⟨some "tk", some "42", "S", "F", none, none, false⟩, "ST", "DU", fun _ => some (some 5)⟩

/-- A delivery target for the sticker-choice claim. -/
def c8cfg : TelegramConfig := ⟨some "tk", some "42", "S", "F", none, none, false⟩

/-- A session with one failed report (so the fail sticker is due). -/
def c8f : FormatterState :=
  ⟨[("failed", [⟨"t.py::test_a", some "boom", "boom"⟩])], [], "ST", "DU"⟩

/-- An oracle for the sticker-choice claim. -/
def c8oracle : ResponseOracle := fun _ => some (some 9)

/-- A line that feeds the retry table through the log-parsing path. -/
def c9line : String := "t.py::test_a failed on attempt 1! Retrying!"

/-- A retry table whose single key does not equal, but does contain, the bare
name of the node id looked up in the fallback-lookup claim. -/
def c10tbl : RetryTable := [("x.py::test_other_stuff", ⟨2, "passed"⟩)]

/-! ## Helper lemmas on the retry table -/

theorem tblFind_tblSet_self (tbl : RetryTable) (k : String) (r : RetryRec) :
    tblFind (tblSet tbl k r) k = some r := by
  induction tbl with
  | nil => simp [tblSet, tblFind]
  | cons hd t ih =>
    obtain ⟨k', r'⟩ := hd
    by_cases hk : (k' == k) = true
    · simp [tblSet, tblFind, hk]
    · simp [tblSet, tblFind, hk, ih]

theorem mem_of_tblFind {tbl : RetryTable} {k : String} {r : RetryRec}
    (h : tblFind tbl k = some r) : (k, r) ∈ tbl := by
  induction tbl with
  | nil => simp [tblFind] at h
  | cons hd t ih =>
    obtain ⟨k', r'⟩ := hd
    by_cases hk : (k' == k) = true
    · have hk' : k' = k := by simpa using hk
      simp [tblFind, hk] at h
      subst hk'
      subst h
      exact List.mem_cons_self _ _
    · simp [tblFind, hk] at h
      exact List.mem_cons_of_mem _ (ih h)

theorem tblFind_setFinal (tbl : RetryTable) (k : String) (o : String) :
    tblFind (setFinal tbl k o) k = (tblFind tbl k).map (fun r => ⟨r.attempts, o⟩) := by
  unfold setFinal
  cases h : tblFind tbl k with
  | none => simp [h]
  | some r => simp [h, tblFind_tblSet_self]

/-! ## C1: attempts are reconciled by maximum, never by sum -/

theorem attempts_applySignal (tbl : RetryTable) (id : String) (s : AttemptSignal) :
    (tblFind (applyAttemptSignal tbl id s) id).map (fun r => r.attempts)
      = match observedVal s with
        | none => (tblFind tbl id).map (fun r => r.attempts)
        | some v => obsMax ((tblFind tbl id).map (fun r => r.attempts)) v := by
  cases s with
  | scraped n =>
    cases h : tblFind tbl id with
    | none => simp [applyAttemptSignal, logLineInsert, h, tblFind_tblSet_self, observedVal, obsMax]
    | some r => simp [applyAttemptSignal, logLineInsert, h, tblFind_tblSet_self, observedVal, obsMax]
  | direct rc outcome =>
    cases rc with
    | none =>
      simp only [applyAttemptSignal, makereportCallUpdate, observedVal]
      rw [tblFind_setFinal]
      cases tblFind tbl id <;> simp
    | some v =>
      by_cases hv : 1 < v
      · cases h : tblFind tbl id with
        | none =>
          simp only [applyAttemptSignal, makereportCallUpdate, observedVal, h, hv, if_true]
          rw [tblFind_setFinal, tblFind_tblSet_self]
          simp [obsMax, h]
        | some r =>
          simp only [applyAttemptSignal, makereportCallUpdate, observedVal, h, hv, if_true]
          rw [tblFind_setFinal, tblFind_tblSet_self]
          simp [obsMax, h]
      · simp only [applyAttemptSignal, makereportCallUpdate, observedVal, hv, if_false]
        rw [tblFind_setFinal]
        cases tblFind tbl id <;> simp

theorem attempts_foldl (id : String) :
    ∀ (sigs : List AttemptSignal) (tbl : RetryTable),
      (tblFind (sigs.foldl (fun t s => applyAttemptSignal t id s) tbl) id).map
          (fun r => r.attempts)
        = (observedVals sigs).foldl obsMax ((tblFind tbl id).map (fun r => r.attempts)) := by
  intro sigs
  induction sigs with
  | nil => intro tbl; simp [observedVals]
  | cons s sigs ih =>
    intro tbl
    rw [List.foldl_cons, ih, attempts_applySignal]
    cases hv : observedVal s with
    | none => simp [observedVals, List.filterMap_cons, hv]
    | some v => simp [observedVals, List.filterMap_cons, hv]

theorem foldl_obsMax_some : ∀ (l : List Int) (a : Int),
    l.foldl obsMax (some a) = some (l.foldl max a) := by
  intro l
  induction l with
  | nil => intro a; rfl
  | cons v vs ih => intro a; rw [List.foldl_cons, List.foldl_cons]; exact ih (max a v)

theorem foldl_obsMax_none (l : List Int) : l.foldl obsMax none = listMax? l := by
  cases l with
  | nil => rfl
  | cons v vs =>
    rw [List.foldl_cons, listMax?]
    exact foldl_obsMax_some vs v

/-- C1.  For every sequence of attempt-completion signals for a single test
identity within one session — attribute/marker signals with their detected
counts, and log-scraped signals with their extracted attempt numbers — the
`attempts` value finally stored for that identity equals the maximum attempt
number observed across all the signals (`none` only when no signal carried
one), never their sum. -/
theorem retry_attempts_is_max (sigs : List AttemptSignal) (id : String)
    (tbl : RetryTable) (h : tblFind tbl id = none) :
    (tblFind (sigs.foldl (fun t s => applyAttemptSignal t id s) tbl) id).map
        (fun r => r.attempts)
      = listMax? (observedVals sigs) := by
  rw [attempts_foldl, h]
  exact foldl_obsMax_none _

/-- Witness for C1: from a fresh table, the sequence with observed attempt
numbers `[3, 3, 2]` stores `attempts = 3` (their maximum — a sum would give 8). -/
theorem retry_attempts_is_max_witness :
    tblFind ([] : RetryTable) "t.py::test_a" = none ∧
    (tblFind (c1sigs.foldl (fun t s => applyAttemptSignal t "t.py::test_a" s) [])
        "t.py::test_a").map (fun r => r.attempts) = some 3 :=
  ⟨rfl, (retry_attempts_is_max c1sigs "t.py::test_a" [] rfl).trans (by decide)⟩

/-! ## C9: every update path inserts records with at least two attempts -/

theorem inv_tblSet {tbl : RetryTable} {k : String} {r : RetryRec}
    (h : ∀ p ∈ tbl, 2 ≤ p.2.attempts) (hr : 2 ≤ r.attempts) :
    ∀ p ∈ tblSet tbl k r, 2 ≤ p.2.attempts := by
  induction tbl with
  | nil => simpa [tblSet] using hr
  | cons hd t ih =>
    obtain ⟨k', r'⟩ := hd
    by_cases hk : (k' == k) = true
    · intro p hp
      rw [tblSet, if_pos hk] at hp
      rcases List.mem_cons.mp hp with h1 | h1
      · subst h1; exact hr
      · exact h p (List.mem_cons_of_mem _ h1)
    · intro p hp
      rw [tblSet, if_neg hk] at hp
      rcases List.mem_cons.mp hp with h1 | h1
      · subst h1; exact h _ (List.mem_cons_self _ _)
      · exact ih (fun q hq => h q (List.mem_cons_of_mem _ hq)) p h1

theorem inv_setFinal {tbl : RetryTable} {k o : String}
    (h : ∀ p ∈ tbl, 2 ≤ p.2.attempts) :
    ∀ p ∈ setFinal tbl k o, 2 ≤ p.2.attempts := by
  unfold setFinal
  cases hf : tblFind tbl k with
  | none => exact h
  | some r => exact inv_tblSet h (h (k, r) (mem_of_tblFind hf))

theorem inv_makereportCallUpdate {tbl : RetryTable} {nodeid : String}
    {rc : Option Int} {outcome : String} (h : ∀ p ∈ tbl, 2 ≤ p.2.attempts) :
    ∀ p ∈ makereportCallUpdate tbl nodeid rc outcome, 2 ≤ p.2.attempts := by
  unfold makereportCallUpdate
  apply inv_setFinal
  cases rc with
  | none => exact h
  | some v =>
    dsimp only
    by_cases hv : 1 < v
    · rw [if_pos hv]
      cases hf : tblFind tbl nodeid with
      | none => exact inv_tblSet h (show (2 : Int) ≤ v by omega)
      | some r =>
        exact inv_tblSet h
          (show (2 : Int) ≤ max r.attempts v from
            le_trans (h (nodeid, r) (mem_of_tblFind hf)) (le_max_left _ _))
    · rw [if_neg hv]; exact h

theorem inv_logLineInsert {tbl : RetryTable} {name : String} {n : Int}
    (h : ∀ p ∈ tbl, 2 ≤ p.2.attempts) (hn : 1 ≤ n) :
    ∀ p ∈ logLineInsert tbl name n, 2 ≤ p.2.attempts := by
  unfold logLineInsert
  cases hf : tblFind tbl name with
  | none => exact inv_tblSet h (show (2 : Int) ≤ n + 1 by omega)
  | some r =>
    exact inv_tblSet h
      (show (2 : Int) ≤ max r.attempts (n + 1) from
        le_trans (h (name, r) (mem_of_tblFind hf)) (le_max_left _ _))

theorem attemptNumAt_pos {words : List (List Char)} {j : Nat} {n : Int}
    (h : attemptNumAt words j = some n) : 1 ≤ n := by
  unfold attemptNumAt at h
  revert h
  cases pyInt (stripPunct (words.getD j [])) with
  | none => intro h; cases h
  | some m =>
    show (if 1 ≤ m ∧ m ≤ 10 then some m else none) = some n → 1 ≤ n
    by_cases hm : 1 ≤ m ∧ m ≤ 10
    · rw [if_pos hm]
      intro h
      injection h with h'
      omega
    · rw [if_neg hm]
      intro h
      cases h

theorem firstAttemptNum_pos {words : List (List Char)} {i : Nat} {n : Int}
    (h : firstAttemptNum words i = some n) : 1 ≤ n := by
  unfold firstAttemptNum at h
  obtain ⟨j, _, hfj⟩ := List.exists_of_findSome?_eq_some h
  exact attemptNumAt_pos hfj

theorem inv_extractStep {words : List (List Char)} {tbl : RetryTable} {i : Nat}
    (h : ∀ p ∈ tbl, 2 ≤ p.2.attempts) :
    ∀ p ∈ extractStep words tbl i, 2 ≤ p.2.attempts := by
  unfold extractStep
  by_cases hc : containsSub ("attempt".toList) (lowerList (words.getD i [])) = true
  · rw [if_pos hc]
    cases ha : firstAttemptNum words i with
    | none => exact h
    | some n =>
      cases firstNodeidBefore words i with
      | none => exact h
      | some name => exact inv_logLineInsert h (firstAttemptNum_pos ha)
  · rw [if_neg hc]; exact h

theorem inv_foldl {α : Type} {g : RetryTable → α → RetryTable}
    (hg : ∀ t x, (∀ p ∈ t, 2 ≤ p.2.attempts) → ∀ p ∈ g t x, 2 ≤ p.2.attempts) :
    ∀ (l : List α) (t : RetryTable), (∀ p ∈ t, 2 ≤ p.2.attempts) →
      ∀ p ∈ l.foldl g t, 2 ≤ p.2.attempts := by
  intro l
  induction l with
  | nil => intro t ht; exact ht
  | cons x xs ih => intro t ht; exact ih (g t x) (hg t x ht)

theorem inv_extractRetryInfoFromLine {tbl : RetryTable} {line : String}
    (h : ∀ p ∈ tbl, 2 ≤ p.2.attempts) :
    ∀ p ∈ extractRetryInfoFromLine tbl line, 2 ≤ p.2.attempts := by
  unfold extractRetryInfoFromLine
  exact inv_foldl (fun t i ht => inv_extractStep ht) _ _ h

theorem inv_parseOutputLine {tbl : RetryTable} {line : String}
    (h : ∀ p ∈ tbl, 2 ≤ p.2.attempts) :
    ∀ p ∈ parseOutputLine tbl line, 2 ≤ p.2.attempts := by
  unfold parseOutputLine
  by_cases hm : lineMatchesRetryPattern line = true
  · rw [if_pos hm]; exact inv_extractRetryInfoFromLine h
  · rw [if_neg hm]; exact h

theorem inv_parseTerminalOutput {tbl : RetryTable} {lines : List String}
    (h : ∀ p ∈ tbl, 2 ≤ p.2.attempts) :
    ∀ p ∈ parse_terminal_output_for_retries tbl lines, 2 ≤ p.2.attempts := by
  unfold parse_terminal_output_for_retries
  exact inv_foldl (fun t line ht => inv_parseOutputLine ht) _ _ h

theorem finalResultFor_attempts (test_results : List (String × String))
    (p : String × RetryRec) : (finalResultFor test_results p).2.attempts = p.2.attempts := by
  unfold finalResultFor
  cases List.lookup p.1 test_results with
  | some result => rfl
  | none =>
    cases test_results.find? (fun q => containsSub (lastSepPart p.1).toList q.1.toList) with
    | some q => rfl
    | none => rfl

theorem inv_updateRetryFinalResults {tbl : RetryTable} {stats : SessionStats}
    (h : ∀ p ∈ tbl, 2 ≤ p.2.attempts) :
    ∀ p ∈ update_retry_final_results tbl stats, 2 ≤ p.2.attempts := by
  unfold update_retry_final_results
  intro p hp
  obtain ⟨q, hq, hpq⟩ := List.mem_map.mp hp
  subst hpq
  rw [finalResultFor_attempts]
  exact h q hq

theorem inv_makereport {tbl : RetryTable} {when nodeid : String}
    {attrs : List (String × Int)} {markerArgs : Option (List Int)} {outcome : String}
    (h : ∀ p ∈ tbl, 2 ≤ p.2.attempts) :
    ∀ p ∈ pytest_runtest_makereport tbl when nodeid attrs markerArgs outcome,
      2 ≤ p.2.attempts := by
  unfold pytest_runtest_makereport
  split
  · exact inv_makereportCallUpdate h
  · exact h

/-- C9.  Invariant of the retry table: the attribute/marker path only inserts
when the detected count strictly exceeds 1, and the log-parsing path stores an
extracted number (at least 1) plus one, so on every table reachable by the
source's update paths within a session, every record has `attempts ≥ 2` —
membership in the table already means the test was retried. -/
theorem retry_table_attempts_ge_two (tbl : RetryTable) (h : RetryReach tbl) :
    ∀ p ∈ tbl, 2 ≤ p.2.attempts := by
  induction h with
  | empty => intro p hp; cases hp
  | step _ hstep ih =>
    cases hstep with
    | makereport when nodeid attrs markerArgs outcome => exact inv_makereport ih
    | logline line => exact inv_extractRetryInfoFromLine ih
    | outputScan lines => exact inv_parseTerminalOutput ih
    | finalize stats => exact inv_updateRetryFinalResults ih

/-- Witness for C9: the table reached from empty by parsing one retry log line
contains the scraped record, and the theorem yields `2 ≤` its attempts. -/
theorem retry_table_attempts_ge_two_witness :
    2 ≤ (("t.py::test_a", RetryRec.mk 2 "unknown") : String × RetryRec).2.attempts :=
  retry_table_attempts_ge_two (extractRetryInfoFromLine [] c9line)
    (RetryReach.step RetryReach.empty (RetryStep.logline [] c9line))
    ("t.py::test_a", RetryRec.mk 2 "unknown") (by decide)

/-! ## C2: retry statistics versus records with a single attempt -/

/-- Counterexample for C2 as stated over arbitrary tables: on a table holding
one record with `attempts = 1`, the code reports one retried test (it counts
`len(retry_info)`), while the claimed figure — records with `attempts > 1` —
is zero; the record also appears in the retry-detail message rather than being
excluded. -/
theorem retry_counts_counterexample :
    (retry_counts c2tbl).1 = 1 ∧
    (c2tbl.filter (fun p => decide (1 < p.2.attempts))).length = 0 ∧
    (format_retry_details_message c2tbl).isSome = true := by
  refine ⟨rfl, rfl, ?_⟩
  rfl

/-- C2 (amended).  On every retry table whose records all have at least two
attempts — which is every table the update paths can build, by the table
invariant — the reported retried-test count equals the number of records with
`attempts > 1`, and the total extra attempts equal the sum of `attempts − 1`
over exactly those records. -/
theorem retry_counts_spec (tbl : RetryTable) (h : ∀ p ∈ tbl, 2 ≤ p.2.attempts) :
    (retry_counts tbl).1 = (tbl.filter (fun p => decide (1 < p.2.attempts))).length ∧
    (retry_counts tbl).2 =
      ((tbl.filter (fun p => decide (1 < p.2.attempts))).map
        (fun p => p.2.attempts - 1)).sum := by
  have hf : tbl.filter (fun p => decide (1 < p.2.attempts)) = tbl :=
    List.filter_eq_self.mpr (fun p hp => by
      have := h p hp
      simp only [decide_eq_true_eq]
      omega)
  rw [hf]
  exact ⟨rfl, rfl⟩

/-- Witness for C2 (amended): on a two-record table with attempts 3 and 2, both
figures agree (2 retried tests, 3 extra attempts). -/
theorem retry_counts_spec_witness :
    (retry_counts c2tbl').1 = (c2tbl'.filter (fun p => decide (1 < p.2.attempts))).length ∧
    (retry_counts c2tbl').2 =
      ((c2tbl'.filter (fun p => decide (1 < p.2.attempts))).map
        (fun p => p.2.attempts - 1)).sum :=
  retry_counts_spec c2tbl' (by decide)

/-! ## C3: the failed-detail output has no limit and no truncation marker -/

theorem foldl_append_map {α β : Type} (f : α → β) :
    ∀ (l : List α) (init : List β),
      l.foldl (fun acc r => acc ++ [f r]) init = init ++ l.map f := by
  intro l
  induction l with
  | nil => intro init; simp
  | cons a t ih =>
    intro init
    rw [List.foldl_cons, ih, List.map_cons]
    simp

/-- Counterexample for C3: with five failed reports (and any `limit`, which the
code does not have), the failed-detail output is exactly five lines — not three
lines plus a truncation marker. -/
theorem failed_detail_counterexample :
    (failed_detail_lines c3stats []).length = 5 ∧
    (format_failed_tests_message c3stats []).map countLines = some 5 := by
  constructor
  · rfl
  · rfl

/-- C3 (amended).  The failed-detail output lists, in session order (failed
reports first, then error reports), one single-line description per
failed/errored test — all of them, with no limit and no truncation marker: the
message is exactly the newline join of one line per report. -/
theorem failed_detail_spec (stats : SessionStats) (retryInfo : RetryTable)
    (h : statsGet stats "failed" ≠ [] ∨ statsGet stats "error" ≠ []) :
    format_failed_tests_message stats retryInfo
      = some (String.intercalate "\n" (failed_detail_lines stats retryInfo)) ∧
    failed_detail_lines stats retryInfo
      = (statsGet stats "failed").map (line_for "Failed" retryInfo)
        ++ (statsGet stats "error").map (line_for "Error" retryInfo) ∧
    (failed_detail_lines stats retryInfo).length
      = countOf stats "failed" + countOf stats "error" := by
  have hlines : failed_detail_lines stats retryInfo
      = (statsGet stats "failed").map (line_for "Failed" retryInfo)
        ++ (statsGet stats "error").map (line_for "Error" retryInfo) := by
    unfold failed_detail_lines
    rw [foldl_append_map, foldl_append_map]
    simp
  have hcond : ((statsGet stats "failed").isEmpty && (statsGet stats "error").isEmpty)
      = false := by
    rcases h with h | h
    · simp [List.isEmpty_eq_false.mpr h]
    · simp [List.isEmpty_eq_false.mpr h]
  refine ⟨?_, hlines, ?_⟩
  · unfold format_failed_tests_message
    rw [hcond]
    rfl
  · rw [hlines, List.length_append, List.length_map, List.length_map]
    rfl

/-- Witness for C3 (amended): at the five-failed-report session the message is
the join of the five per-report lines. -/
theorem failed_detail_spec_witness :
    format_failed_tests_message c3stats []
      = some (String.intercalate "\n" (failed_detail_lines c3stats [])) ∧
    failed_detail_lines c3stats []
      = (statsGet c3stats "failed").map (line_for "Failed" [])
        ++ (statsGet c3stats "error").map (line_for "Error" []) ∧
    (failed_detail_lines c3stats []).length
      = countOf c3stats "failed" + countOf c3stats "error" :=
  failed_detail_spec c3stats [] (Or.inl (by decide))

/-! ## C4: the order in which the sends are issued -/

/-- Counterexample for C4 as stated: with both retries and failures present,
the request at position 2 is the failed-detail message and the one at
position 3 is the retry-detail message — the code sends failed-detail before
retry-detail, not after it as claimed. -/
theorem send_order_counterexample :
    (send_test_results c4cfg c4oracle c4f)[2]? =
      some (TgRequest.sendMessage (some "42")
        ((format_failed_tests_message c4f.stats c4f.retry_info).getD "") none none) ∧
    (send_test_results c4cfg c4oracle c4f)[3]? =
      some (TgRequest.sendMessage (some "42")
        ((format_retry_details_message c4f.retry_info).getD "") (some "Markdown") none) ∧
    (format_failed_tests_message c4f.stats c4f.retry_info).isSome = true ∧
    (format_retry_details_message c4f.retry_info).isSome = true ∧
    (format_failed_tests_message c4f.stats c4f.retry_info).getD ""
      ≠ (format_retry_details_message c4f.retry_info).getD "" := by
  refine ⟨rfl, rfl, rfl, rfl, ?_⟩
  decide

/-- C4 (amended).  When delivery is configured the sends are issued in the
order: status indicator (unless disabled) at position 0, then the summary text
(threaded as a reply to the indicator's message id when one is available)
immediately after, then the failed-detail text (only when failures/errors
occurred), and the retry-detail text (only when retries occurred) last. -/
theorem send_order (cfg : TelegramConfig) (oracle : ResponseOracle) (f : FormatterState) :
    (cfg.disable_stickers = false →
      (send_test_results cfg oracle f)[0]? =
        some (TgRequest.sendSticker cfg.chat_id (stickerChoice cfg (has_failures f.stats)))) ∧
    ((send_test_results cfg oracle f)[if cfg.disable_stickers then 0 else 1]? =
      some (TgRequest.sendMessage cfg.chat_id
        (format_summary_message f (envText cfg) cfg.report_url) (some "Markdown")
        (replyField (if cfg.disable_stickers then none else (oracle 0).bind id)))) ∧
    (∀ txt, format_failed_tests_message f.stats f.retry_info = some txt →
      (send_test_results cfg oracle f)[(if cfg.disable_stickers then 0 else 1) + 1]? =
        some (TgRequest.sendMessage cfg.chat_id txt none none)) ∧
    (∀ txt, format_retry_details_message f.retry_info = some txt →
      (send_test_results cfg oracle f).getLast? =
        some (TgRequest.sendMessage cfg.chat_id txt (some "Markdown") none)) := by
  cases hds : cfg.disable_stickers <;>
    cases hfm : format_failed_tests_message f.stats f.retry_info <;>
      cases hrm : format_retry_details_message f.retry_info <;>
        simp [send_test_results, hds, hfm, hrm, List.getLast?_concat]

/-- Witness for C4 (amended): at the concrete configured session with one
failure and one retry, the indicator is first, the failed-detail message is at
position 2 and the retry-detail message is last. -/
theorem send_order_witness :
    (send_test_results c4cfg c4oracle c4f)[0]? =
      some (TgRequest.sendSticker c4cfg.chat_id
        (stickerChoice c4cfg (has_failures c4f.stats))) ∧
    (send_test_results c4cfg c4oracle c4f)[2]? =
      some (TgRequest.sendMessage c4cfg.chat_id
        ((format_failed_tests_message c4f.stats c4f.retry_info).getD "") none none) ∧
    (send_test_results c4cfg c4oracle c4f).getLast? =
      some (TgRequest.sendMessage c4cfg.chat_id
        ((format_retry_details_message c4f.retry_info).getD "") (some "Markdown") none) := by
  have h := send_order c4cfg c4oracle c4f
  exact ⟨h.1 rfl, h.2.2.1 _ (by rfl), h.2.2.2 _ (by rfl)⟩

/-! ## C5: a failed send never blocks the later sends -/

/-- C5.  `_make_request` catches every `RequestException` (transport failures
and the non-2xx statuses surfaced by `raise_for_status`) and returns `None`,
which the model totalises as the response oracle; consequently, for EVERY
oracle — in particular one on which the summary send fails — the retry-detail
send is still issued whenever retries were tracked, as the last request of the
trace. -/
theorem retry_send_attempted (cfg : TelegramConfig) (oracle : ResponseOracle)
    (f : FormatterState) (h : f.retry_info ≠ []) :
    ∃ txt, format_retry_details_message f.retry_info = some txt ∧
      (send_test_results cfg oracle f).getLast? =
        some (TgRequest.sendMessage cfg.chat_id txt (some "Markdown") none) := by
  have hr : has_retries f.retry_info = true := by
    simp [has_retries, List.isEmpty_eq_false.mpr h]
  have hrm : format_retry_details_message f.retry_info
      = some (String.intercalate "\n"
          ("🔄 *Tests that required retries:*\n" ::
            f.retry_info.map (fun p =>
              "• `" ++ p.1 ++ "`\n" ++
              "  └ Attempts: *" ++ toString p.2.attempts ++ "* - "
                ++ retryStatus p.2.final_result))) := by
    unfold format_retry_details_message
    rw [hr]
    rfl
  refine ⟨_, hrm, ?_⟩
  cases hds : cfg.disable_stickers <;>
    cases hfm : format_failed_tests_message f.stats f.retry_info <;>
      simp [send_test_results, hds, hfm, hrm, List.getLast?_concat]

/-- Witness for C5: with one tracked retry and an oracle on which every
request (the summary included) fails, the retry-detail message is still the
last issued request. -/
theorem retry_send_attempted_witness :
    ∃ txt, format_retry_details_message c5f.retry_info = some txt ∧
      (send_test_results c5cfg c5oracle c5f).getLast? =
        some (TgRequest.sendMessage c5cfg.chat_id txt (some "Markdown") none) :=
  retry_send_attempted c5cfg c5oracle c5f (by decide)

/-! ## C6: absent credentials make the session-end hook send nothing -/

/-- C6.  If the token or the chat id is absent (Python-falsy: `None` or the
empty string), `pytest_terminal_summary` issues no HTTP request of any kind. -/
theorem no_http_when_unconfigured (tbl : RetryTable) (inp : TerminalSummaryInput)
    (h : pyTruthy inp.cfg.token = false ∨ pyTruthy inp.cfg.chat_id = false) :
    (pytest_terminal_summary tbl inp).2 = [] := by
  have hc : inp.cfg.is_configured = false := by
    unfold TelegramConfig.is_configured
    rcases h with h | h <;> simp [h]
  unfold pytest_terminal_summary
  cases hw : inp.has_workerinput <;> simp [hw, hc]

/-- Witness for C6: with the token absent but a live chat id, stats and retry
lines, the hook issues zero requests. -/
theorem no_http_when_unconfigured_witness :
    (pytest_terminal_summary [] c6inp).2 = [] :=
  no_http_when_unconfigured [] c6inp (Or.inl rfl)

/-! ## C7: a distributed-execution worker short-circuits all reporting -/

/-- C7.  When the `workerinput` configuration attribute is present, the
session-end hook returns before any aggregation, formatting or delivery: the
retry table is left untouched and no request is issued. -/
theorem worker_no_reporting (tbl : RetryTable) (inp : TerminalSummaryInput)
    (h : inp.has_workerinput = true) :
    pytest_terminal_summary tbl inp = (tbl, []) := by
  unfold pytest_terminal_summary
  rw [h]
  rfl

/-- Witness for C7: on a worker process with a configured target, retry lines
and stats, the hook leaves the table unchanged and sends nothing. -/
theorem worker_no_reporting_witness :
    pytest_terminal_summary [] c7inp = ([], []) :=
  worker_no_reporting [] c7inp rfl

/-! ## C8: the failure predicate and the sticker choice -/

/-- C8.  `has_failures` holds iff the failed count is positive or the error
count is positive, and when stickers are enabled the first issued request is
the sticker selected by exactly this predicate (fail sticker iff it holds). -/
theorem has_failures_spec (cfg : TelegramConfig) (oracle : ResponseOracle)
    (f : FormatterState) (hd : cfg.disable_stickers = false) :
    (has_failures f.stats = true ↔
      0 < countOf f.stats "failed" ∨ 0 < countOf f.stats "error") ∧
    (send_test_results cfg oracle f).head? =
      some (TgRequest.sendSticker cfg.chat_id
        (if 0 < countOf f.stats "failed" ∨ 0 < countOf f.stats "error"
         then cfg.fail_sticker_id else cfg.success_sticker_id)) := by
  have hiff : has_failures f.stats = true ↔
      0 < countOf f.stats "failed" ∨ 0 < countOf f.stats "error" := by
    simp [has_failures]
  refine ⟨hiff, ?_⟩
  have hsticker : stickerChoice cfg (has_failures f.stats)
      = (if 0 < countOf f.stats "failed" ∨ 0 < countOf f.stats "error"
         then cfg.fail_sticker_id else cfg.success_sticker_id) := by
    by_cases hp : 0 < countOf f.stats "failed" ∨ 0 < countOf f.stats "error"
    · rw [if_pos hp, stickerChoice, if_pos (hiff.mpr hp)]
    · rw [if_neg hp, stickerChoice,
        if_neg (fun hb => hp (hiff.mp hb))]
  rw [← hsticker]
  cases hfm : format_failed_tests_message f.stats f.retry_info <;>
    cases hrm : format_retry_details_message f.retry_info <;>
      simp [send_test_results, hd, hfm, hrm]

/-- Witness for C8: with one failed report and stickers enabled, the first
request is the fail sticker. -/
theorem has_failures_spec_witness :
    (has_failures c8f.stats = true ↔
      0 < countOf c8f.stats "failed" ∨ 0 < countOf c8f.stats "error") ∧
    (send_test_results c8cfg c8oracle c8f).head? =
      some (TgRequest.sendSticker c8cfg.chat_id
        (if 0 < countOf c8f.stats "failed" ∨ 0 < countOf c8f.stats "error"
         then c8cfg.fail_sticker_id else c8cfg.success_sticker_id)) :=
  has_failures_spec c8cfg c8oracle c8f rfl

/-! ## C10: the by-name fallback of the retry lookup -/

theorem find?_eq_some_split {α : Type} (p : α → Bool) :
    ∀ (l : List α) (a : α), l.find? p = some a ↔
      p a = true ∧ ∃ l1 l2, l = l1 ++ a :: l2 ∧ ∀ x ∈ l1, p x = false := by
  intro l
  induction l with
  | nil => intro a; simp
  | cons b t ih =>
    intro a
    by_cases hb : p b = true
    · rw [List.find?_cons_of_pos _ hb]
      constructor
      · intro h
        injection h with h
        subst h
        exact ⟨hb, [], t, rfl, by simp⟩
      · rintro ⟨hpa, l1, l2, heq, hl1⟩
        cases l1 with
        | nil =>
          simp only [List.nil_append, List.cons.injEq] at heq
          rw [heq.1]
        | cons c l1 =>
          simp only [List.cons_append, List.cons.injEq] at heq
          have hc := hl1 c (List.mem_cons_self _ _)
          rw [← heq.1] at hc
          rw [hc] at hb
          cases hb
    · rw [List.find?_cons_of_neg _ hb]
      rw [ih a]
      have hbf : p b = false := by
        cases hpb : p b
        · rfl
        · exact absurd hpb hb
      constructor
      · rintro ⟨hpa, l1, l2, heq, hl1⟩
        refine ⟨hpa, b :: l1, l2, by rw [heq, List.cons_append], ?_⟩
        intro x hx
        rcases List.mem_cons.mp hx with hx | hx
        · rw [hx]; exact hbf
        · exact hl1 x hx
      · rintro ⟨hpa, l1, l2, heq, hl1⟩
        cases l1 with
        | nil =>
          simp only [List.nil_append, List.cons.injEq] at heq
          rw [← heq.1] at hpa
          rw [hpa] at hbf
          cases hbf
        | cons c l1 =>
          simp only [List.cons_append, List.cons.injEq] at heq
          exact ⟨hpa, l1, l2, heq.2, fun x hx => hl1 x (List.mem_cons_of_mem _ hx)⟩

/-- C10.  When a failed/errored report's exact node id is not a key of the
retry table, the lookup returns the record of the first table entry whose key
contains the report's bare test function name (the part after the last `::`)
as a substring, and returns nothing exactly when no key contains it — so a
record for a different but like-named test can be attached to a failure line. -/
theorem get_retry_info_fallback (tbl : RetryTable) (nodeid : String)
    (h : tblFind tbl nodeid = none) :
    (∀ r, get_retry_info_for_test tbl nodeid = some r ↔
        firstSubstrMatch tbl (lastSepPart nodeid) r) ∧
    (get_retry_info_for_test tbl nodeid = none ↔
        ∀ p ∈ tbl, containsSub (lastSepPart nodeid).toList p.1.toList = false) := by
  have hget : get_retry_info_for_test tbl nodeid
      = (tbl.find? (fun p => containsSub (lastSepPart nodeid).toList p.1.toList)).map
          (fun p => p.2) := by
    unfold get_retry_info_for_test
    rw [h]
  constructor
  · intro r
    rw [hget]
    constructor
    · intro hr
      obtain ⟨q, hq, hq2⟩ := Option.map_eq_some'.mp hr
      obtain ⟨hp, l1, l2, heq, hl1⟩ :=
        (find?_eq_some_split _ tbl q).mp hq
      subst hq2
      exact ⟨l1, q.1, l2, heq, hp, hl1⟩
    · rintro ⟨l1, k, l2, heq, hk, hl1⟩
      have hfind : tbl.find? (fun p => containsSub (lastSepPart nodeid).toList p.1.toList)
          = some (k, r) :=
        (find?_eq_some_split _ tbl (k, r)).mpr ⟨hk, l1, l2, heq, hl1⟩
      rw [hfind]
      rfl
  · rw [hget]
    constructor
    · intro hr p hp
      have hfind : tbl.find? (fun p => containsSub (lastSepPart nodeid).toList p.1.toList)
          = none := Option.map_eq_none'.mp hr
      have := List.find?_eq_none.mp hfind p hp
      cases hc : containsSub (lastSepPart nodeid).toList p.1.toList
      · rfl
      · exact absurd hc this
    · intro hall
      have hfind : tbl.find? (fun p => containsSub (lastSepPart nodeid).toList p.1.toList)
          = none :=
        List.find?_eq_none.mpr (fun p hp => by rw [hall p hp]; simp)
      rw [hfind]
      rfl

/-- Witness for C10: the node id `y.py::test_other` is not a key of the table,
but its bare name `test_other` occurs inside the key `x.py::test_other_stuff`,
so that different test's record is returned. -/
theorem get_retry_info_fallback_witness :
    get_retry_info_for_test c10tbl "y.py::test_other" = some ⟨2, "passed"⟩ :=
  ((get_retry_info_fallback c10tbl "y.py::test_other" (by decide)).1 ⟨2, "passed"⟩).mpr
    ⟨[], "x.py::test_other_stuff", [], rfl, by decide, by simp⟩

end PytestTelegram
